import Mathlib

/-!
Verification of the spec of the guided workflow demo backend
(`backend/src/services/workflow_service.py`, `artifact_generator.py`,
`session_service.py`, `scenario_service.py`, `api/workflow.py`).

Strings are embedded as `List Char`; Python string truthiness is emptiness,
`str.find` is `pyFind`, `str.rstrip`/`str.lstrip` strip ASCII whitespace.
-/

namespace SpecKit

/-- Markdown / free text, embedded as a list of characters. -/
abbrev Md := List Char

/-- Shorthand turning a Lean string literal into the character-list embedding. -/
def lit (s : String) : Md := s.toList

/-- Whitespace characters stripped by Python `str.strip()` (ASCII range). -/
def pyIsSpace (c : Char) : Bool :=
  c = ' ' || c = '\t' || c = '\n' || c = '\r' || c = '\x0b' || c = '\x0c'

/-- Python `s.lstrip()`. -/
def pyLstrip (s : Md) : Md := s.dropWhile pyIsSpace

/-- Python `s.rstrip()`. -/
def pyRstrip (s : Md) : Md := (s.reverse.dropWhile pyIsSpace).reverse

/-- Helper for `pyFind`: first position at or after index `i` where `needle`
is a prefix of the remaining haystack. -/
def findFromAux (needle : List Char) : List Char → Nat → Option Nat
  | [], i => if needle.isPrefixOf ([] : List Char) then some i else none
  | c :: rest, i =>
      if needle.isPrefixOf (c :: rest) then some i else findFromAux needle rest (i + 1)

/-- Python `hay.find(needle, start)`: index of the first occurrence of `needle`
at or after `start`, `none` standing for Python's `-1`. -/
def pyFind (hay needle : Md) (start : Nat) : Option Nat :=
  findFromAux needle (hay.drop start) start

/-- Python `needle in hay`. -/
def containsSub (hay needle : Md) : Bool := (pyFind hay needle 0).isSome

/-- The heading marker opening a previous-context block
(`marker = "## 📋 Previous Context"` in `_strip_previous_context_block`). -/
def ctxMarker : Md := lit "## 📋 Previous Context"

/-- `_strip_previous_context_block` from
`workflow_service.py` (`_build_artifact_context`), embedded clause by clause:
empty-or-markerless strings are returned unchanged; otherwise the span from the
marker to the end of the first `\n---` line after it is removed and the two
remaining sides are rejoined. -/
def stripPreviousContextBlock (markdown : Md) : Md :=
  if markdown = [] then markdown
  else
    match pyFind markdown ctxMarker 0 with
    | none => markdown
    | some start =>
      match pyFind markdown (lit "\n---") start with
      | none => pyRstrip (markdown.take start)
      | some sepStart =>
        match pyFind markdown (lit "\n") (sepStart + 1) with
        | none => pyRstrip (markdown.take start)
        | some sepLineEnd =>
          let before := pyRstrip (markdown.take start)
          let after := pyLstrip (markdown.drop (sepLineEnd + 1))
          if before ≠ [] ∧ after ≠ [] then before ++ lit "\n\n" ++ after
          else if before = [] then after else before

/-- Position just past the horizontal-rule line terminating a previous-context
block that starts at `markerPos`: the character after the first newline that
follows the first `"\n---"` occurrence at or after the marker. -/
def ruleLineEnd (md : Md) (markerPos : Nat) : Option Nat :=
  match pyFind md (lit "\n---") markerPos with
  | none => none
  | some sepStart => (pyFind md (lit "\n") (sepStart + 1)).map (fun e => e + 1)

/-- Joining the two surviving sides with exactly one blank line, or keeping the
single surviving side when the other is empty. -/
def joinWithBlankLine (a b : Md) : Md :=
  if a = [] then b else if b = [] then a else a ++ lit "\n\n" ++ b

/-- The stripping function as the spec words it: marker absent — unchanged;
marker followed by a terminating rule line — text before the marker and text
after the rule line, trimmed and rejoined with one blank line; marker with no
terminating rule line — everything before the marker, trailing whitespace
removed. -/
def stripSpecWording (md : Md) : Md :=
  match pyFind md ctxMarker 0 with
  | none => md
  | some markerPos =>
    match ruleLineEnd md markerPos with
    | none => pyRstrip (md.take markerPos)
    | some afterRule =>
        joinWithBlankLine (pyRstrip (md.take markerPos)) (pyLstrip (md.drop afterRule))

/-! ## Data model

`DemoScenario`, `DemoSession` and the per-phase input map, reduced to the
fields the workflow engine and context builder read. -/

/-- One clarification Q/A pair (a `{"question": ..., "answer": ...}` dict). -/
structure Clarification where
  question : Md
  answer : Md
deriving DecidableEq

/-- One workflow phase descriptor (the `phase_name`/`display_name` dicts held in
`DemoScenario.workflow_phases`). -/
structure PhaseDescriptor where
  phaseName : String
  displayName : Md := []
deriving DecidableEq

/-- A `DemoScenario` (model `demo_scenario.py`), reduced to the fields read by
the workflow service, context builder and artifact generator. -/
structure DemoScenario where
  id : String
  title : Md
  description : Md
  domain : Md
  isCustom : Bool := false
  workflowPhases : List PhaseDescriptor := []
  initialPrompt : Md := []
  techStack : List Md := []
  demoClarifications : List Clarification := []
deriving DecidableEq

/-- The `phase_name` list of a scenario
(`[phase["phase_name"] for phase in scenario.workflow_phases]`). -/
def phaseNames (sc : DemoScenario) : List String :=
  sc.workflowPhases.map (fun p => p.phaseName)

/-- One value of the session's phase-input map. Missing dict keys are read back
with the defaults `""` / `[]`, so absent fields are embedded as empty ones. -/
structure PhaseEntry where
  input : Md := []
  clarifications : List Clarification := []
  artifactMarkdown : Md := []
deriving DecidableEq

/-- The session's phase-input map: phase name to entry, insertion-ordered. -/
abbrev PhaseInputs := List (String × PhaseEntry)

/-- Python `phase_inputs.get(k, {})`: the entry for `k`, empty when absent. -/
def lookupEntry (m : PhaseInputs) (k : String) : PhaseEntry :=
  match m.find? (fun p => p.1 == k) with
  | some p => p.2
  | none => {}

/-- Python `k in phase_inputs`. -/
def hasKey (m : PhaseInputs) (k : String) : Bool :=
  (m.find? (fun p => p.1 == k)).isSome

/-- One appended action-log record (`ActionLogEntry`). -/
structure LogEntry where
  actionType : String
  actionDetail : String
deriving DecidableEq

/-- The single mutable `DemoSession` (model `session.py`), reduced to the
fields the claims are about. A fresh session has every field empty. -/
structure DemoSession where
  currentScenarioId : Option String := none
  currentPhaseName : Option String := none
  actionLog : List LogEntry := []
  phaseInputs : PhaseInputs := []
deriving DecidableEq

/-- `DemoSession.log_action`. -/
def logAction (s : DemoSession) (actionType actionDetail : String) : DemoSession :=
  { s with actionLog := s.actionLog ++ [⟨actionType, actionDetail⟩] }

/-- `SessionService.update_session`: optionally set the scenario id and the
phase name, logging an action for each field that is set. -/
def updateSession (s : DemoSession) (scenarioId : Option String)
    (phaseName : Option String) : DemoSession :=
  let s1 :=
    match scenarioId with
    | some sid =>
        logAction { s with currentScenarioId := some sid }
          "scenario_select" ("Selected scenario: " ++ sid)
    | none => s
  match phaseName with
  | some p =>
      logAction { s1 with currentPhaseName := some p }
        "phase_advance" ("Moved to phase: " ++ p)
  | none => s1

/-- Process state shared by the services: the in-memory custom-scenario store
of `ScenarioService` and the current session of `SessionService`. -/
structure AppState where
  customScenarios : List (String × DemoScenario) := []
  session : DemoSession := {}
deriving DecidableEq

/-- `ScenarioService.get_scenario_by_id`: custom scenarios first, then the
file-backed fixed catalog (an external collaborator, passed as `fixed`). -/
def getScenarioById (fixed : String → Option DemoScenario) (st : AppState)
    (scenarioId : String) : Option DemoScenario :=
  match st.customScenarios.find? (fun p => p.1 == scenarioId) with
  | some p => some p.2
  | none => fixed scenarioId

/-- Python `list.index` packaged as an option (`none` for the raised
`ValueError`): index of the first occurrence. -/
def indexOfFirst : List String → String → Option Nat
  | [], _ => none
  | a :: as, x => if a = x then some 0 else (indexOfFirst as x).map (fun i => i + 1)

/-! ## Context builder (`WorkflowService._build_artifact_context`) -/

/-- The context object handed to the artifact generator: every key the builder
sets, in source order. -/
structure ArtifactContext where
  title : Md
  description : Md
  domain : Md
  initialPrompt : Md
  date : Md
  currentPhase : String
  userInput : Md
  specifyInput : Md
  clarifications : Md
  clarificationsList : List Clarification
  planInput : Md
  tasksInput : Md
  techStack : Md
deriving DecidableEq

/-- `"sep".join(items)`. -/
def joinSep (sep : Md) : List Md → Md
  | [] => []
  | [x] => x
  | x :: y :: xs => x ++ sep ++ joinSep sep (y :: xs)

/-- One formatted Q/A block (`f"**Q:** {q}\n**A:** {a}"`). -/
def formatClarification (c : Clarification) : Md :=
  lit "**Q:** " ++ c.question ++ lit "\n**A:** " ++ c.answer

/-- The clarification list actually used: the explicit list, with the preset
`demo_clarifications` fallback for non-custom scenarios and a target phase in
clarify/plan/tasks/implement. -/
def effectiveClarifications (sc : DemoScenario) (phaseName : String)
    (clarifications : List Clarification) : List Clarification :=
  if clarifications ≠ [] then clarifications
  else if sc.isCustom = false ∧ sc.demoClarifications ≠ [] ∧
      (phaseName = "clarify" ∨ phaseName = "plan" ∨ phaseName = "tasks" ∨
        phaseName = "implement") then
    sc.demoClarifications
  else []

/-- The formatted clarification text: Q/A blocks for the pairs whose answer is
non-empty (`if c.get("answer")`), joined by blank lines. -/
def formattedClarifications (eff : List Clarification) : Md :=
  if eff = [] then []
  else joinSep (lit "\n\n")
    ((eff.filter (fun c => c.answer ≠ [])).map formatClarification)

/-- `_build_artifact_context`, with the request date passed explicitly as
`today` (the source stamps `datetime.utcnow().strftime("%Y-%m-%d")`). -/
def buildArtifactContext (sc : DemoScenario) (phaseName : String) (userInput : Md)
    (clarifications : List Clarification) (allPhaseInputs : PhaseInputs)
    (today : Md) : ArtifactContext :=
  let specifyInput := (lookupEntry allPhaseInputs "specify").input
  let planInput := (lookupEntry allPhaseInputs "plan").input
  let tasksInput := (lookupEntry allPhaseInputs "tasks").input
  let planArtifactMarkdown :=
    stripPreviousContextBlock (lookupEntry allPhaseInputs "plan").artifactMarkdown
  let tasksArtifactMarkdown :=
    stripPreviousContextBlock (lookupEntry allPhaseInputs "tasks").artifactMarkdown
  let eff := effectiveClarifications sc phaseName clarifications
  { title := sc.title
    description := sc.description
    domain := sc.domain
    initialPrompt := sc.initialPrompt
    date := today
    currentPhase := phaseName
    userInput := userInput
    specifyInput := if specifyInput ≠ [] then specifyInput else sc.initialPrompt
    clarifications := formattedClarifications eff
    clarificationsList := eff
    planInput := if planArtifactMarkdown ≠ [] then planArtifactMarkdown else planInput
    tasksInput := if tasksArtifactMarkdown ≠ [] then tasksArtifactMarkdown else tasksInput
    techStack := joinSep (lit ", ") sc.techStack }

/-! ## Artifact generator (`ArtifactGenerator.generate_with_context` and the
per-phase `_generate_*_content` routines) -/

/-- Helper for `pyTitle`: the flag records whether the previous character was
alphabetic. -/
def pyTitleAux : List Char → Bool → List Char
  | [], _ => []
  | c :: cs, prevAlpha =>
      (if c.isAlpha then (if prevAlpha then c.toLower else c.toUpper) else c) ::
        pyTitleAux cs c.isAlpha

/-- Python `s.title()` restricted to ASCII letters. -/
def pyTitle (s : String) : Md := pyTitleAux s.toList false

/-- The previous-context block of `_generate_clarify_content` (quotes the
specify input when it is non-empty and differs from the initial prompt). -/
def clarifyPreviousContext (sc : DemoScenario) (ctx : ArtifactContext) : Md :=
  if ctx.specifyInput ≠ [] ∧ ctx.specifyInput ≠ sc.initialPrompt then
    lit "\n## 📋 Previous Context: Specification Phase\n\n> **User Input from Specify Phase:**\n> \n> " ++
      ctx.specifyInput ++ lit "\n\n---\n"
  else []

/-- The `previous_context` accumulator of `_generate_plan_content`: the specify
block and the clarify block are appended independently (two `if`s, not an
`elif` chain). -/
def planPreviousContext (sc : DemoScenario) (ctx : ArtifactContext) : Md :=
  (if ctx.specifyInput ≠ [] ∧ ctx.specifyInput ≠ sc.initialPrompt then
     lit "\n> **From Specify Phase:**\n> " ++ ctx.specifyInput ++ lit "\n"
   else []) ++
  (if ctx.clarifications ≠ [] then
     lit "\n> **From Clarify Phase:**\n> " ++ ctx.clarifications ++ lit "\n"
   else [])

/-- The `previous_section` of `_generate_plan_content`. -/
def planPreviousSection (sc : DemoScenario) (ctx : ArtifactContext) : Md :=
  if planPreviousContext sc ctx ≠ [] then
    lit "\n## 📋 Previous Context\n\n" ++ planPreviousContext sc ctx ++ lit "\n\n---\n"
  else []

/-- The `previous_context_parts` list of `_generate_tasks_content`
(`if plan / elif clarifications / elif specify`). -/
def tasksPreviousContextParts (sc : DemoScenario) (ctx : ArtifactContext) : List Md :=
  if ctx.planInput ≠ [] then
    [lit "> **From Plan Phase:**\n> " ++ ctx.planInput]
  else if ctx.clarifications ≠ [] then
    [lit "> **From Clarify Phase:**\n> " ++ ctx.clarifications]
  else if ctx.specifyInput ≠ [] ∧ ctx.specifyInput ≠ sc.initialPrompt then
    [lit "> **From Specify Phase:**\n> " ++ ctx.specifyInput]
  else []

/-- The `previous_section` of `_generate_tasks_content`. -/
def tasksPreviousSection (sc : DemoScenario) (ctx : ArtifactContext) : Md :=
  if tasksPreviousContextParts sc ctx ≠ [] then
    lit "\n## 📋 Previous Context\n\n" ++
      joinSep (lit "\n") (tasksPreviousContextParts sc ctx) ++ lit "\n\n---\n"
  else []

/-- The `previous_context_parts` list of `_generate_implement_content`
(`if tasks / elif plan / elif clarifications / elif specify`). -/
def implementPreviousContextParts (sc : DemoScenario) (ctx : ArtifactContext) :
    List Md :=
  if ctx.tasksInput ≠ [] then
    [lit "> **From Tasks Phase:**\n> " ++ ctx.tasksInput]
  else if ctx.planInput ≠ [] then
    [lit "> **From Plan Phase:**\n> " ++ ctx.planInput]
  else if ctx.clarifications ≠ [] then
    [lit "> **From Clarify Phase:**\n> " ++ ctx.clarifications]
  else if ctx.specifyInput ≠ [] ∧ ctx.specifyInput ≠ sc.initialPrompt then
    [lit "> **From Specify Phase:**\n> " ++ ctx.specifyInput]
  else []

/-- The `previous_section` of `_generate_implement_content`. -/
def implementPreviousSection (sc : DemoScenario) (ctx : ArtifactContext) : Md :=
  if implementPreviousContextParts sc ctx ≠ [] then
    lit "\n## 📋 Previous Context\n\n" ++
      joinSep (lit "\n") (implementPreviousContextParts sc ctx) ++ lit "\n\n---\n"
  else []

/-- `_generate_spec_content`. -/
def generateSpecContent (sc : DemoScenario) (ctx : ArtifactContext) : Md :=
  lit "# Feature Specification: " ++ ctx.title ++
  lit "\n\n## Overview\n\n" ++ ctx.description ++
  lit "\n\n## 📝 User Specification Input\n\n> " ++
  (if (if ctx.userInput ≠ [] then ctx.userInput else ctx.specifyInput) ≠ [] then
     (if ctx.userInput ≠ [] then ctx.userInput else ctx.specifyInput)
   else sc.initialPrompt) ++
  lit "\n\n## Domain\n\n**Industry/Domain:** " ++ ctx.domain ++
  lit "\n\n## Technical Context\n\n" ++
  (if ctx.techStack ≠ [] then lit "**Tech Stack:** " ++ ctx.techStack else []) ++
  lit "\n\n## Analysis\n\nBased on the specification above, this feature will require:\n\n- **User Interface**: Interactive components for user interaction\n- **Backend Services**: API endpoints and business logic\n- **Data Layer**: Storage and retrieval mechanisms\n- **Security**: Authentication and authorization checks\n\n## Next Steps\n\nProceed to the **Clarification** phase to refine requirements and resolve any ambiguities.\n\n## Generated\n\n*Generated on " ++
  ctx.date ++ lit "*\n"

/-- `_generate_clarify_content`. -/
def generateClarifyContent (sc : DemoScenario) (ctx : ArtifactContext) : Md :=
  lit "# Clarification Summary: " ++ ctx.title ++ lit "\n" ++
  clarifyPreviousContext sc ctx ++
  lit "\n## Original Requirements\n\n" ++ sc.initialPrompt ++
  lit "\n\n## Clarifying Questions & Answers\n\n" ++
  (if ctx.clarifications ≠ [] then ctx.clarifications
   else lit "*Answer the questions above and click \x27Generate Artifact\x27 to see your clarifications here.*") ++
  lit "\n\n## Additional Context\n\n" ++
  (if ctx.userInput ≠ [] then ctx.userInput
   else lit "*No additional context provided.*") ++
  lit "\n\n## Next Steps\n\nBased on the clarifications above, the next phase will create a detailed implementation plan.\n\n## Generated\n\n*Generated on " ++
  ctx.date ++ lit "*\n"

/-- `_generate_plan_content`. -/
def generatePlanContent (sc : DemoScenario) (ctx : ArtifactContext) : Md :=
  lit "# Implementation Plan: " ++ ctx.title ++ lit "\n" ++
  planPreviousSection sc ctx ++
  lit "\n## Executive Summary\n\nThis plan outlines the implementation approach for " ++
  ctx.title ++
  lit ".\n\n## Requirements Summary\n\n" ++ sc.initialPrompt ++
  lit "\n\n## Clarifications Applied\n\n" ++
  (if ctx.clarifications ≠ [] then ctx.clarifications
   else lit "*No clarifications were provided.*") ++
  lit "\n\n## Technical Approach\n\n" ++
  (if ctx.userInput ≠ [] then ctx.userInput
   else
     lit "\n### Architecture Overview\n\nThe implementation will follow a modular architecture with the following components:\n\n1. **Frontend Layer** - User interface and experience\n2. **Backend Layer** - Business logic and API endpoints  \n3. **Data Layer** - Data persistence and management\n4. **Integration Layer** - External service connections\n\n### Technology Stack\n\n" ++
       ctx.techStack ++
       lit "\n\n### Key Design Decisions\n\n- Follow industry best practices for " ++
       ctx.domain ++
       lit "\n- Implement comprehensive error handling\n- Ensure scalability and maintainability\n") ++
  lit "\n\n## Implementation Phases\n\n1. **Phase 1: Foundation** - Project setup and infrastructure\n2. **Phase 2: Core Features** - Primary functionality implementation\n3. **Phase 3: Integration** - External services and APIs\n4. **Phase 4: Polish** - Testing, documentation, and optimization\n\n## Generated\n\n*Generated on " ++
  ctx.date ++ lit "*\n"

/-- `_generate_tasks_content`. -/
def generateTasksContent (sc : DemoScenario) (ctx : ArtifactContext) : Md :=
  lit "# Task Breakdown: " ++ ctx.title ++ lit "\n" ++
  tasksPreviousSection sc ctx ++
  lit "\n## Overview\n\nThis document contains the detailed task breakdown for implementing " ++
  ctx.title ++
  lit ".\n\n    " ++
  (if ctx.userInput ≠ [] then lit "## Custom Requirements\n\n" ++ ctx.userInput else []) ++
  lit "\n\n## Clarifications Applied\n\n" ++
  (if ctx.clarifications ≠ [] then ctx.clarifications
   else lit "*No clarifications were provided.*") ++
  lit "\n\n## Phase 1: Setup & Foundation\n\n- [ ] T001 Create project directory structure\n- [ ] T002 Configure development environment\n- [ ] T003 Set up linting and formatting tools\n- [ ] T004 Initialize version control\n- [ ] T005 Create initial documentation\n\n## Phase 2: Core Implementation\n\n- [ ] T006 Implement data models\n- [ ] T007 Create service layer\n- [ ] T008 Build API endpoints\n- [ ] T009 Develop frontend components\n- [ ] T010 Implement business logic\n\n## Phase 3: Integration & Testing\n\n- [ ] T011 Write unit tests\n- [ ] T012 Write integration tests\n- [ ] T013 Configure CI/CD pipeline\n- [ ] T014 Set up monitoring\n\n## Phase 4: Polish & Documentation\n\n- [ ] T015 Create user documentation\n- [ ] T016 Performance optimization\n- [ ] T017 Security review\n- [ ] T018 Final testing and QA\n\n## Dependencies\n\nTasks should be completed in order within each phase.\n\n## Generated\n\n*Generated on " ++
  ctx.date ++ lit "*\n"

/-- `_generate_implement_content`. -/
def generateImplementContent (sc : DemoScenario) (ctx : ArtifactContext) : Md :=
  lit "# Implementation: " ++ ctx.title ++ lit "\n" ++
  implementPreviousSection sc ctx ++
  lit "\n## Implementation Progress\n\n🎉 **Congratulations!** You\x27ve completed the Spec Kit workflow demonstration.\n\n## Summary of Workflow\n\n1. ✅ **Specification** - Captured requirements\n2. ✅ **Clarification** - Answered questions and refined scope\n3. ✅ **Planning** - Created implementation approach\n4. ✅ **Tasks** - Broke down work into actionable items\n5. ✅ **Implementation** - Ready to execute!\n\n## Clarifications Applied\n\n" ++
  (if ctx.clarifications ≠ [] then ctx.clarifications
   else lit "*No clarifications were provided.*") ++
  lit "\n\n" ++
  (if ctx.userInput ≠ [] then lit "## Implementation Notes\n\n" ++ ctx.userInput else []) ++
  lit "\n\n## What\x27s Next?\n\nIn a real Spec Kit workflow, this phase would:\n\n- Execute tasks automatically using AI assistance\n- Generate code based on the plan and task breakdown\n- Create pull requests with implemented features\n- Run tests and validation checks\n\n## Demo Complete\n\nThis demonstration shows how Spec Kit helps teams:\n\n- **Specify** requirements clearly\n- **Clarify** ambiguities before coding\n- **Plan** implementation thoughtfully\n- **Break down** work into manageable tasks\n- **Implement** with confidence\n\n## Generated\n\n*Generated on " ++
  ctx.date ++ lit "*\n"

/-- The phase dispatch of `ArtifactGenerator.generate_with_context`, restricted
to the markdown body of the produced artifact (timestamps, duration and the
rendered HTML are metadata outside the markdown). -/
def generateMarkdownWithContext (phaseName : String) (sc : DemoScenario)
    (ctx : ArtifactContext) : Md :=
  if phaseName = "specify" then generateSpecContent sc ctx
  else if phaseName = "clarify" then generateClarifyContent sc ctx
  else if phaseName = "plan" then generatePlanContent sc ctx
  else if phaseName = "tasks" then generateTasksContent sc ctx
  else if phaseName = "implement" then generateImplementContent sc ctx
  else lit "# " ++ pyTitle phaseName ++ lit " Phase\n\nNo content generated for this phase."

/-! ## Workflow engine (`WorkflowService` and the `api/workflow.py` handlers) -/

/-- The markdown produced for a phase from the stored phase inputs: shared body
of `WorkflowService._generate_artifact_from_input` and
`WorkflowService.generate_artifact_with_context` (current input and
clarifications are read from the entry of the target phase, the context from
the whole map). -/
def generateArtifactWithContext (sc : DemoScenario) (phaseName : String)
    (allPhaseInputs : PhaseInputs) (today : Md) : Md :=
  generateMarkdownWithContext phaseName sc
    (buildArtifactContext sc phaseName (lookupEntry allPhaseInputs phaseName).input
      (lookupEntry allPhaseInputs phaseName).clarifications allPhaseInputs today)

/-- The response shape shared by the workflow mutations
(`scenario`, `current_phase`, `phase_index`, `total_phases`). -/
structure WorkflowView where
  scenario : DemoScenario
  currentPhase : Option PhaseDescriptor
  phaseIndex : Nat
  totalPhases : Nat
deriving DecidableEq

/-- `WorkflowService.initialize_workflow`: `NotFound` on an unknown scenario;
otherwise the session's scenario id is set and its phase name is set to the
literal `"specify"`, and the scenario's first phase descriptor is returned with
index 0. -/
def initializeWorkflow (fixed : String → Option DemoScenario) (st : AppState)
    (scenarioId : String) : Except String (AppState × WorkflowView) :=
  match getScenarioById fixed st scenarioId with
  | none => Except.error ("Scenario not found: " ++ scenarioId)
  | some sc =>
      Except.ok
        ({ st with session := updateSession st.session (some scenarioId) (some "specify") },
         { scenario := sc, currentPhase := sc.workflowPhases.head?, phaseIndex := 0,
           totalPhases := sc.workflowPhases.length })

/-- `WorkflowService.advance_phase`. The index of the session's current phase
is looked up with a fallback to 0 when the phase is not in the list
(`except ValueError: current_index = 0`); the error is raised before any
session mutation. The external constitution check triggered when leaving
"plan" does not touch the session and is omitted; the regenerated artifact of
the phase being left is the optional markdown in the result. -/
def advancePhase (fixed : String → Option DemoScenario) (today : Md)
    (st : AppState) (scenarioId : String) :
    Except String (AppState × WorkflowView × Option Md) :=
  match getScenarioById fixed st scenarioId with
  | none => Except.error ("Scenario not found: " ++ scenarioId)
  | some sc =>
      let currentPhase := st.session.currentPhaseName.getD "specify"
      let currentIndex := (indexOfFirst (phaseNames sc) currentPhase).getD 0
      if sc.workflowPhases.length - 1 ≤ currentIndex then
        Except.error "Already at final phase"
      else
        let nextIndex := currentIndex + 1
        let nextPhase := sc.workflowPhases.getD nextIndex { phaseName := "" }
        let previousArtifact :=
          if hasKey st.session.phaseInputs currentPhase then
            some (generateArtifactWithContext sc currentPhase st.session.phaseInputs today)
          else none
        let session2 :=
          logAction (updateSession st.session (some scenarioId) (some nextPhase.phaseName))
            "phase_advance" ("Advanced to " ++ nextPhase.phaseName)
        Except.ok
          ({ st with session := session2 },
           ({ scenario := sc, currentPhase := some nextPhase, phaseIndex := nextIndex,
              totalPhases := sc.workflowPhases.length }, previousArtifact))

/-- `WorkflowService.jump_to_phase`: unknown scenario or a target phase outside
the scenario's phase list error before any session mutation. -/
def jumpToPhase (fixed : String → Option DemoScenario) (st : AppState)
    (scenarioId targetPhase : String) : Except String (AppState × WorkflowView) :=
  match getScenarioById fixed st scenarioId with
  | none => Except.error ("Scenario not found: " ++ scenarioId)
  | some sc =>
      match indexOfFirst (phaseNames sc) targetPhase with
      | none => Except.error ("Phase not found: " ++ targetPhase)
      | some targetIndex =>
          let session2 :=
            logAction (updateSession st.session (some scenarioId) (some targetPhase))
              "phase_jump" ("Jumped to " ++ targetPhase)
          Except.ok
            ({ st with session := session2 },
             { scenario := sc,
               currentPhase := some (sc.workflowPhases.getD targetIndex { phaseName := "" }),
               phaseIndex := targetIndex, totalPhases := sc.workflowPhases.length })

/-- The `reset_workflow` handler: `clear_custom_scenarios` plus
`reset_session` (a brand-new empty session) plus one logged "reset" action. -/
def resetWorkflow (_st : AppState) : AppState :=
  { customScenarios := [],
    session := logAction {} "reset" "Demo reset to initial state" }

/-- Replacing the whole entry of a key (insertion at the end when absent),
preserving the insertion order of a Python dict. -/
def updateEntry (m : PhaseInputs) (k : String) (e : PhaseEntry) : PhaseInputs :=
  if hasKey m k then m.map (fun p => if p.1 == k then (p.1, e) else p)
  else m ++ [(k, e)]

/-- The persistence step of the `generate_artifact_for_phase` handler:
`setdefault` keeps any stored input and clarifications (defaulting to empty)
and the generated markdown overwrites `artifact_markdown`. -/
def persistArtifact (m : PhaseInputs) (k : String) (md : Md) : PhaseInputs :=
  updateEntry m k { lookupEntry m k with artifactMarkdown := md }

/-- One call of the advance endpoint as a state transformer: the new state on
success, the state unchanged when the service raises. -/
def advanceStep (fixed : String → Option DemoScenario) (today : Md)
    (scenarioId : String) (st : AppState) : AppState :=
  match advancePhase fixed today st scenarioId with
  | Except.ok (st', _) => st'
  | Except.error _ => st

/-- `advanceStep` iterated `n` times. -/
def advanceTimes (fixed : String → Option DemoScenario) (today : Md)
    (scenarioId : String) (st : AppState) : Nat → AppState
  | 0 => st
  | n + 1 => advanceTimes fixed today scenarioId (advanceStep fixed today scenarioId st) n

/-- The index of the session's current phase inside a scenario's phase list,
after the default `"specify"` is applied to an unset phase. -/
def sessionPhaseIndex (sc : DemoScenario) (s : DemoSession) : Option Nat :=
  indexOfFirst (phaseNames sc) (s.currentPhaseName.getD "specify")

/-- Empty fixed catalog, used by the concrete instances below. -/
def noFixed : String → Option DemoScenario := fun _ => none

/-! ## Spec-side definitions

Definitions that follow the wording of the spec sentences under scrutiny, to
be compared with the embeddings above. -/

/-- Formatting exactly as the spec words it: every resolved Q/A pair becomes an
alternating Q/A block, the blocks joined by blank lines. -/
def formatClarificationsClaim (l : List Clarification) : Md :=
  joinSep (lit "\n\n") (l.map formatClarification)

/-- The prior sources a previous-context section can quote. -/
inductive PrevSource
  | fromSpecify
  | fromClarify
  | fromPlan
  | fromTasks
deriving DecidableEq

/-- Availability of the specify output as a quotable source: non-empty and
different from the scenario's initial prompt. -/
def specifySourceAvailable (sc : DemoScenario) (ctx : ArtifactContext) : Bool :=
  !ctx.specifyInput.isEmpty && ctx.specifyInput != sc.initialPrompt

/-- The spec's precedence for the tasks routine:
plan output > clarifications > specify output. -/
def highestTasksSource (sc : DemoScenario) (ctx : ArtifactContext) : Option PrevSource :=
  if !ctx.planInput.isEmpty then some PrevSource.fromPlan
  else if !ctx.clarifications.isEmpty then some PrevSource.fromClarify
  else if specifySourceAvailable sc ctx then some PrevSource.fromSpecify
  else none

/-- The spec's precedence for the implement routine:
tasks output > plan output > clarifications > specify output. -/
def highestImplementSource (sc : DemoScenario) (ctx : ArtifactContext) :
    Option PrevSource :=
  if !ctx.tasksInput.isEmpty then some PrevSource.fromTasks
  else if !ctx.planInput.isEmpty then some PrevSource.fromPlan
  else if !ctx.clarifications.isEmpty then some PrevSource.fromClarify
  else if specifySourceAvailable sc ctx then some PrevSource.fromSpecify
  else none

/-- The quoted block a single source contributes to a previous-context
section. -/
def renderSource (ctx : ArtifactContext) : PrevSource → Md
  | PrevSource.fromSpecify => lit "> **From Specify Phase:**\n> " ++ ctx.specifyInput
  | PrevSource.fromClarify => lit "> **From Clarify Phase:**\n> " ++ ctx.clarifications
  | PrevSource.fromPlan => lit "> **From Plan Phase:**\n> " ++ ctx.planInput
  | PrevSource.fromTasks => lit "> **From Tasks Phase:**\n> " ++ ctx.tasksInput

/-- The list of quoted blocks the chosen source yields: none, or exactly one. -/
def renderSourceList (ctx : ArtifactContext) : Option PrevSource → List Md
  | none => []
  | some s => [renderSource ctx s]

/-! ## Concrete instances used by witnesses and counterexamples -/

/-- A concrete non-custom scenario with the standard five-phase list. -/
def scDemo : DemoScenario :=
  { id := "user-authentication"
    title := lit "User Authentication"
    description := lit "Secure login flow with email and password."
    domain := lit "security"
    workflowPhases :=
      [⟨"specify", lit "Specification"⟩, ⟨"clarify", lit "Clarification"⟩,
       ⟨"plan", lit "Planning"⟩, ⟨"tasks", lit "Tasks"⟩,
       ⟨"implement", lit "Implementation"⟩]
    initialPrompt := lit "Users must be able to log in."
    techStack := [lit "Python", lit "Flask"]
    demoClarifications := [⟨lit "Which factor?", lit "Email and password"⟩] }

/-- A phase-input map with a submitted specify input. -/
def inputsSpecify : PhaseInputs :=
  [("specify", { input := lit "Login with email and a one-time code" })]

/-- The context the builder produces for the plan phase of `scDemo` over
`inputsSpecify`: live specify input plus preset clarifications. -/
def ctxPlanDemo : ArtifactContext :=
  buildArtifactContext scDemo "plan" [] [] inputsSpecify (lit "2026-10-12")

/-- A concrete scenario whose declared phase list does not begin with
"specify" (the scenario data model does not constrain the first phase). -/
def scOdd : DemoScenario :=
  { id := "plan-first"
    title := lit "Plan First Walkthrough"
    description := lit "A scenario whose phase list starts at planning."
    domain := lit "other"
    workflowPhases := [⟨"plan", lit "Planning"⟩, ⟨"tasks", lit "Tasks"⟩]
    initialPrompt := lit "Start from planning." }

/-- A state whose catalog holds `scOdd` as a custom scenario. -/
def stOdd : AppState :=
  { customScenarios := [("plan-first", scOdd)], session := {} }

/-- A state whose session's current phase is not in `scDemo`'s phase list. -/
def stStray : AppState :=
  { customScenarios := [("user-authentication", scDemo)],
    session := { currentPhaseName := some "review" } }

/-- A state whose session sits at the last phase of `scDemo`. -/
def stLast : AppState :=
  { customScenarios := [("user-authentication", scDemo)],
    session := { currentPhaseName := some "implement" } }

/-- A state with a stored specify input and a custom scenario, used to observe
what Initialize leaves untouched. -/
def stWithInputs : AppState :=
  { customScenarios := [("user-authentication", scDemo)],
    session := { currentScenarioId := some "other", currentPhaseName := some "tasks",
                 actionLog := [⟨"scenario_select", "Selected scenario: other"⟩],
                 phaseInputs := inputsSpecify } }

/-- The state after initializing `scDemo` on `stWithInputs`. -/
def stAfterInit : AppState :=
  match initializeWorkflow noFixed stWithInputs "user-authentication" with
  | Except.ok (st', _) => st'
  | Except.error _ => stWithInputs

/-- The response view of that same initialization. -/
def viewAfterInit : WorkflowView :=
  match initializeWorkflow noFixed stWithInputs "user-authentication" with
  | Except.ok (_, v) => v
  | Except.error _ =>
      { scenario := scDemo, currentPhase := none, phaseIndex := 0, totalPhases := 0 }

/-- The observable outcome of one Advance call: the new session phase name and
the reported phase index on success, `none` on a raised error. -/
def advanceOutcome (fixed : String → Option DemoScenario) (today : Md)
    (st : AppState) (sid : String) : Option (Option String × Nat) :=
  match advancePhase fixed today st sid with
  | Except.ok (st', v, _) => some (st'.session.currentPhaseName, v.phaseIndex)
  | Except.error _ => none

/-- The session's current phase name after an initialization call (unchanged on
error, since the service raises before touching the session). -/
def sessionPhaseAfterInit (fixed : String → Option DemoScenario) (st : AppState)
    (sid : String) : Option String :=
  match initializeWorkflow fixed st sid with
  | Except.ok (st', _) => st'.session.currentPhaseName
  | Except.error _ => st.session.currentPhaseName

/-- The state after initializing `scOdd` on `stOdd`. -/
def stOddAfter : AppState :=
  match initializeWorkflow noFixed stOdd "plan-first" with
  | Except.ok (st', _) => st'
  | Except.error _ => stOdd

/-- The response view of that same initialization of `scOdd`. -/
def viewOddAfter : WorkflowView :=
  match initializeWorkflow noFixed stOdd "plan-first" with
  | Except.ok (_, v) => v
  | Except.error _ =>
      { scenario := scOdd, currentPhase := none, phaseIndex := 0, totalPhases := 0 }

/-! ## Sanity checks of the embedding on concrete inputs -/

example :
    stripPreviousContextBlock (lit "A\n\n## 📋 Previous Context\n\nquoted\n\n---\nB") =
      lit "A\n\nB" := by decide

example :
    stripPreviousContextBlock (lit "A\n\n## 📋 Previous Context\n\nquoted") = lit "A" := by
  decide

example : stripPreviousContextBlock (lit "plain body") = lit "plain body" := by decide

example : ctxPlanDemo.specifyInput = lit "Login with email and a one-time code" := by decide

example :
    ctxPlanDemo.clarifications = lit "**Q:** Which factor?\n**A:** Email and password" := by
  decide

example : pyTitle "review" = lit "Review" := by decide

/-! ## Helper lemmas -/

theorem indexOfFirst_get {l : List String} {i : Nat} (h : i < l.length)
    (hn : l.Nodup) : indexOfFirst l (l.get ⟨i, h⟩) = some i := by
  induction l generalizing i with
  | nil => simp at h
  | cons a as ih =>
    cases i with
    | zero => simp [indexOfFirst]
    | succ j =>
      have hj : j < as.length := Nat.lt_of_succ_lt_succ h
      have hmem : as.get ⟨j, hj⟩ ∈ as := as.get_mem j hj
      have hne : a ≠ as.get ⟨j, hj⟩ := by
        intro he
        exact (List.nodup_cons.mp hn).1 (he ▸ hmem)
      simp only [List.get_cons_succ]
      rw [indexOfFirst, if_neg hne, ih hj (List.nodup_cons.mp hn).2]
      rfl

theorem append_left_ne_nil {a : Md} (b : Md) (h : a ≠ []) : a ++ b ≠ [] := by
  cases a with
  | nil => exact absurd rfl h
  | cons x xs => simp

/-! ## Claim theorems -/

/-- C1: for every markdown string, the previous-context stripping function
returns the string unchanged when the heading marker is absent; when the marker
is followed by a horizontal-rule line it returns the text before the marker and
the text after the rule line, trimmed on the joined sides and rejoined with one
blank line (or the surviving side alone); and when the marker has no
terminating rule line it returns everything before the marker with trailing
whitespace removed. -/
theorem claim_C1_strip_previous_context (md : Md) :
    stripPreviousContextBlock md = stripSpecWording md := by
  unfold stripPreviousContextBlock stripSpecWording ruleLineEnd
  by_cases h0 : md = []
  · subst h0; rfl
  · simp only [if_neg h0]
    cases hf : pyFind md ctxMarker 0 with
    | none => rfl
    | some start =>
      cases hs : pyFind md (lit "\n---") start with
      | none => simp only [hs]
      | some sepStart =>
        cases hl : pyFind md (lit "\n") (sepStart + 1) with
        | none => simp only [hs, hl, Option.map_none']
        | some sepLineEnd =>
          simp only [hs, hl, Option.map_some']
          unfold joinWithBlankLine
          by_cases hb : pyRstrip (md.take start) = [] <;>
            by_cases ha : pyLstrip (md.drop (sepLineEnd + 1)) = [] <;>
              simp [hb, ha]

/-- C5: the built context resolves specifyOutput to the stored specify input
when non-empty and otherwise to the scenario's initial prompt, and resolves
planOutput (tasksOutput) to the stripped stored plan (tasks) artifact markdown
when that is non-empty, otherwise to the stored raw input of that phase,
otherwise to the empty string. -/
theorem claim_C5_context_fallbacks (sc : DemoScenario) (phaseName : String)
    (userInput : Md) (clarifications : List Clarification) (m : PhaseInputs)
    (today : Md) :
    ((buildArtifactContext sc phaseName userInput clarifications m today).specifyInput =
       if (lookupEntry m "specify").input ≠ [] then (lookupEntry m "specify").input
       else sc.initialPrompt)
  ∧ ((buildArtifactContext sc phaseName userInput clarifications m today).planInput =
       if stripPreviousContextBlock (lookupEntry m "plan").artifactMarkdown ≠ [] then
         stripPreviousContextBlock (lookupEntry m "plan").artifactMarkdown
       else if (lookupEntry m "plan").input ≠ [] then (lookupEntry m "plan").input
       else [])
  ∧ ((buildArtifactContext sc phaseName userInput clarifications m today).tasksInput =
       if stripPreviousContextBlock (lookupEntry m "tasks").artifactMarkdown ≠ [] then
         stripPreviousContextBlock (lookupEntry m "tasks").artifactMarkdown
       else if (lookupEntry m "tasks").input ≠ [] then (lookupEntry m "tasks").input
       else []) := by
  refine ⟨rfl, ?_, ?_⟩
  · show (if stripPreviousContextBlock (lookupEntry m "plan").artifactMarkdown ≠ [] then
        stripPreviousContextBlock (lookupEntry m "plan").artifactMarkdown
      else (lookupEntry m "plan").input) = _
    by_cases h1 : stripPreviousContextBlock (lookupEntry m "plan").artifactMarkdown = [] <;>
      by_cases h2 : (lookupEntry m "plan").input = [] <;> simp [h1, h2]
  · show (if stripPreviousContextBlock (lookupEntry m "tasks").artifactMarkdown ≠ [] then
        stripPreviousContextBlock (lookupEntry m "tasks").artifactMarkdown
      else (lookupEntry m "tasks").input) = _
    by_cases h1 : stripPreviousContextBlock (lookupEntry m "tasks").artifactMarkdown = [] <;>
      by_cases h2 : (lookupEntry m "tasks").input = [] <;> simp [h1, h2]

/-- C8: after Reset the current session is a brand-new empty one (empty
phase-input map, no current scenario, no current phase), every custom scenario
is gone from the catalog, and lookups now see exactly the fixed catalog. -/
theorem claim_C8_reset_clears (st : AppState)
    (fixed : String → Option DemoScenario) (anyId : String) :
    (resetWorkflow st).session.phaseInputs = []
  ∧ (resetWorkflow st).session.currentScenarioId = none
  ∧ (resetWorkflow st).session.currentPhaseName = none
  ∧ (resetWorkflow st).customScenarios = []
  ∧ getScenarioById fixed (resetWorkflow st) anyId = fixed anyId :=
  ⟨rfl, rfl, rfl, rfl, rfl⟩

/-- C10: a successful Initialize changes only the session's current scenario
id, current phase name and action log; the phase-input map and the
custom-scenario store are left intact. -/
theorem claim_C10_initialize_frame (fixed : String → Option DemoScenario)
    (st : AppState) (sid : String) (st' : AppState) (view : WorkflowView)
    (h : initializeWorkflow fixed st sid = Except.ok (st', view)) :
    st'.session.phaseInputs = st.session.phaseInputs
  ∧ st'.customScenarios = st.customScenarios
  ∧ st'.session.currentScenarioId = some sid
  ∧ st'.session.currentPhaseName = some "specify" := by
  unfold initializeWorkflow at h
  cases hl : getScenarioById fixed st sid with
  | none => rw [hl] at h; exact absurd h (by simp)
  | some sc =>
    rw [hl] at h
    simp only [Except.ok.injEq, Prod.mk.injEq] at h
    obtain ⟨h1, _⟩ := h
    subst h1
    exact ⟨rfl, rfl, rfl, rfl⟩

/-- C10 witness: initializing `scDemo` on a state holding a stored specify
input and a custom scenario keeps both and repoints the session. -/
theorem claim_C10_witness :
    stAfterInit.session.phaseInputs = stWithInputs.session.phaseInputs
  ∧ stAfterInit.customScenarios = stWithInputs.customScenarios
  ∧ stAfterInit.session.currentScenarioId = some "user-authentication"
  ∧ stAfterInit.session.currentPhaseName = some "specify" :=
  claim_C10_initialize_frame noFixed stWithInputs "user-authentication"
    stAfterInit viewAfterInit rfl

/-- C4 counterexample: on a scenario whose declared phase list starts with
"plan", Initialize still sets the session's current phase to "specify", which
is not the scenario's first phase. -/
theorem claim_C4_counterexample :
    sessionPhaseAfterInit noFixed stOdd "plan-first" = some "specify"
  ∧ (phaseNames scOdd).get? 0 = some "plan"
  ∧ sessionPhaseAfterInit noFixed stOdd "plan-first" ≠ (phaseNames scOdd).get? 0 :=
  ⟨rfl, rfl, by decide⟩

/-- C4 (amended): for a known scenario, Initialize sets the session's current
scenario to it and the session's current phase name to the literal "specify"
(the scenario's first phase only when its phase list begins with "specify"),
and returns the scenario snapshot with its declared phase order, the first
phase descriptor, phase index 0 and the total phase count. -/
theorem claim_C4_initialize (fixed : String → Option DemoScenario) (st : AppState)
    (sid : String) (sc : DemoScenario) (st' : AppState) (view : WorkflowView)
    (h : getScenarioById fixed st sid = some sc)
    (h2 : initializeWorkflow fixed st sid = Except.ok (st', view)) :
    st'.session.currentScenarioId = some sid
  ∧ st'.session.currentPhaseName = some "specify"
  ∧ view.scenario = sc
  ∧ view.currentPhase = sc.workflowPhases.head?
  ∧ view.phaseIndex = 0
  ∧ view.totalPhases = sc.workflowPhases.length := by
  unfold initializeWorkflow at h2
  rw [h] at h2
  simp only [Except.ok.injEq, Prod.mk.injEq] at h2
  obtain ⟨h1, hv⟩ := h2
  subst h1; subst hv
  exact ⟨rfl, rfl, rfl, rfl, rfl, rfl⟩

/-- C4 witness: the amended statement at the concrete scenario `scOdd`. -/
theorem claim_C4_witness :
    stOddAfter.session.currentScenarioId = some "plan-first"
  ∧ stOddAfter.session.currentPhaseName = some "specify"
  ∧ viewOddAfter.scenario = scOdd
  ∧ viewOddAfter.currentPhase = scOdd.workflowPhases.head?
  ∧ viewOddAfter.phaseIndex = 0
  ∧ viewOddAfter.totalPhases = scOdd.workflowPhases.length :=
  claim_C4_initialize noFixed stOdd "plan-first" scOdd stOddAfter viewOddAfter rfl rfl

/-- C2 counterexample: the plan routine's emitted "Previous Context" section,
on the context built for `scDemo` with a live specify input and preset
clarifications, quotes the specify source and the clarify source together —
a concatenation of two sources. -/
theorem claim_C2_counterexample :
    containsSub (planPreviousSection scDemo ctxPlanDemo)
        (lit "**From Specify Phase:**") = true
  ∧ containsSub (planPreviousSection scDemo ctxPlanDemo)
        (lit "**From Clarify Phase:**") = true := by
  constructor <;> decide

/-- C2 (amended): the tasks and implement routines quote exactly the single
highest-precedence available source (tasks: plan output > clarifications >
specify output; implement: tasks output > plan output > clarifications >
specify output) and emit the section exactly when some source is available;
the plan routine is the exception the original claim missed: it appends the
specify block and the clarify block independently, so both appear when both
are available. -/
theorem claim_C2_single_source (sc : DemoScenario) (ctx : ArtifactContext) :
    tasksPreviousContextParts sc ctx = renderSourceList ctx (highestTasksSource sc ctx)
  ∧ implementPreviousContextParts sc ctx =
      renderSourceList ctx (highestImplementSource sc ctx)
  ∧ (tasksPreviousContextParts sc ctx).length ≤ 1
  ∧ (implementPreviousContextParts sc ctx).length ≤ 1
  ∧ (tasksPreviousSection sc ctx).isEmpty = (highestTasksSource sc ctx).isNone
  ∧ (implementPreviousSection sc ctx).isEmpty = (highestImplementSource sc ctx).isNone
  ∧ planPreviousContext sc ctx =
      (if specifySourceAvailable sc ctx then
         lit "\n> **From Specify Phase:**\n> " ++ ctx.specifyInput ++ lit "\n"
       else []) ++
      (if ctx.clarifications.isEmpty = false then
         lit "\n> **From Clarify Phase:**\n> " ++ ctx.clarifications ++ lit "\n"
       else []) := by
  have etasks : tasksPreviousContextParts sc ctx =
      renderSourceList ctx (highestTasksSource sc ctx) := by
    unfold tasksPreviousContextParts highestTasksSource renderSourceList renderSource
      specifySourceAvailable
    by_cases h1 : ctx.planInput = [] <;>
      by_cases h2 : ctx.clarifications = [] <;>
        by_cases h3 : ctx.specifyInput = [] <;>
          by_cases h4 : ctx.specifyInput = sc.initialPrompt <;>
            simp [h1, h2, h3, h4]
  have eimpl : implementPreviousContextParts sc ctx =
      renderSourceList ctx (highestImplementSource sc ctx) := by
    unfold implementPreviousContextParts highestImplementSource renderSourceList
      renderSource specifySourceAvailable
    by_cases h0 : ctx.tasksInput = [] <;>
      by_cases h1 : ctx.planInput = [] <;>
        by_cases h2 : ctx.clarifications = [] <;>
          by_cases h3 : ctx.specifyInput = [] <;>
            by_cases h4 : ctx.specifyInput = sc.initialPrompt <;>
              simp [h0, h1, h2, h3, h4]
  have ltasks : (tasksPreviousContextParts sc ctx).length ≤ 1 := by
    rw [etasks]
    cases highestTasksSource sc ctx <;> simp [renderSourceList]
  have limpl : (implementPreviousContextParts sc ctx).length ≤ 1 := by
    rw [eimpl]
    cases highestImplementSource sc ctx <;> simp [renderSourceList]
  have hhdr : lit "\n## 📋 Previous Context\n\n" ≠ ([] : Md) := by decide
  have stasks : (tasksPreviousSection sc ctx).isEmpty =
      (highestTasksSource sc ctx).isNone := by
    unfold tasksPreviousSection
    rw [etasks]
    cases highestTasksSource sc ctx <;> simp [renderSourceList, hhdr]
  have simpl : (implementPreviousSection sc ctx).isEmpty =
      (highestImplementSource sc ctx).isNone := by
    unfold implementPreviousSection
    rw [eimpl]
    cases highestImplementSource sc ctx <;> simp [renderSourceList, hhdr]
  have eplan : planPreviousContext sc ctx =
      (if specifySourceAvailable sc ctx then
         lit "\n> **From Specify Phase:**\n> " ++ ctx.specifyInput ++ lit "\n"
       else []) ++
      (if ctx.clarifications.isEmpty = false then
         lit "\n> **From Clarify Phase:**\n> " ++ ctx.clarifications ++ lit "\n"
       else []) := by
    unfold planPreviousContext specifySourceAvailable
    by_cases h2 : ctx.clarifications = [] <;>
      by_cases h3 : ctx.specifyInput = [] <;>
        by_cases h4 : ctx.specifyInput = sc.initialPrompt <;>
          simp [h2, h3, h4]
  exact ⟨etasks, eimpl, ltasks, limpl, stasks, simpl, eplan⟩

/-- C6 counterexample: an explicitly supplied pair whose answer is empty is
resolved into the clarification list, yet the formatted text is empty — the
pair's Q/A block is dropped, not formatted as the claim states. -/
theorem claim_C6_counterexample :
    (buildArtifactContext scDemo "plan" [] [⟨lit "Is audit logging needed?", []⟩] []
        (lit "2026-10-12")).clarificationsList = [⟨lit "Is audit logging needed?", []⟩]
  ∧ (buildArtifactContext scDemo "plan" [] [⟨lit "Is audit logging needed?", []⟩] []
        (lit "2026-10-12")).clarifications = []
  ∧ formatClarificationsClaim [⟨lit "Is audit logging needed?", []⟩] ≠ [] :=
  ⟨rfl, rfl, by decide⟩

/-- C6 (amended): the resolved clarifications are the explicitly supplied
list, falling back to the scenario's presets exactly when that list is empty,
the scenario is non-custom and the target phase is one of
clarify/plan/tasks/implement; the pairs whose answer is non-empty are formatted
as alternating Q/A blocks joined by blank lines, pairs with an empty answer are
omitted, and an empty list yields the empty string. -/
theorem claim_C6_clarifications (sc : DemoScenario) (phaseName : String)
    (userInput : Md) (clarifications : List Clarification) (m : PhaseInputs)
    (today : Md) :
    ((buildArtifactContext sc phaseName userInput clarifications m today).clarificationsList =
       if clarifications = [] ∧ sc.isCustom = false ∧
           (phaseName = "clarify" ∨ phaseName = "plan" ∨ phaseName = "tasks" ∨
             phaseName = "implement") then
         sc.demoClarifications
       else clarifications)
  ∧ ((buildArtifactContext sc phaseName userInput clarifications m today).clarifications =
       formatClarificationsClaim
         (((buildArtifactContext sc phaseName userInput clarifications m
              today).clarificationsList).filter (fun c => c.answer ≠ [])))
  ∧ formatClarificationsClaim [] = [] := by
  refine ⟨?_, ?_, rfl⟩
  · show effectiveClarifications sc phaseName clarifications = _
    unfold effectiveClarifications
    by_cases hc : clarifications = [] <;>
      by_cases hcu : sc.isCustom = false <;>
        by_cases hp : (phaseName = "clarify" ∨ phaseName = "plan" ∨
            phaseName = "tasks" ∨ phaseName = "implement") <;>
          by_cases hd : sc.demoClarifications = [] <;>
            simp [hc, hcu, hp, hd]
  · show formattedClarifications (effectiveClarifications sc phaseName clarifications) =
      formatClarificationsClaim
        ((effectiveClarifications sc phaseName clarifications).filter
          (fun c => c.answer ≠ []))
    unfold formattedClarifications formatClarificationsClaim
    by_cases heff : effectiveClarifications sc phaseName clarifications = [] <;>
      simp [heff, joinSep]

/-- C7 counterexample: with the session's current phase "review", which is not
in `scDemo`'s phase list, Advance does not report an error — it treats the
position as index 0 and succeeds, moving the session to "clarify" at index 1. -/
theorem claim_C7_counterexample :
    indexOfFirst (phaseNames scDemo) "review" = none
  ∧ stStray.session.currentPhaseName = some "review"
  ∧ advanceOutcome noFixed (lit "2026-10-12") stStray "user-authentication" =
      some (some "clarify", 1) :=
  ⟨rfl, rfl, rfl⟩

/-- C7 (amended): Initialize, Advance and Jump report `NotFound` on an unknown
scenario id without touching the session, Jump also errors on a target phase
outside the scenario's phase list; but Advance with a session phase that is
not in the phase list proceeds as if at index 0: it errors only when the list
has at most one phase and otherwise succeeds, landing on phase index 1. -/
theorem claim_C7_error_handling (fixed : String → Option DemoScenario)
    (st : AppState) (sid target : String) (today : Md) :
    (if getScenarioById fixed st sid = none then
       initializeWorkflow fixed st sid = Except.error ("Scenario not found: " ++ sid)
       ∧ advancePhase fixed today st sid = Except.error ("Scenario not found: " ++ sid)
       ∧ jumpToPhase fixed st sid target = Except.error ("Scenario not found: " ++ sid)
     else True)
  ∧ (getScenarioById fixed st sid).elim True (fun sc =>
      (if indexOfFirst (phaseNames sc) target = none then
         jumpToPhase fixed st sid target = Except.error ("Phase not found: " ++ target)
       else True)
      ∧ (if indexOfFirst (phaseNames sc) (st.session.currentPhaseName.getD "specify") =
            none then
           if sc.workflowPhases.length ≤ 1 then
             advancePhase fixed today st sid = Except.error "Already at final phase"
           else (advanceOutcome fixed today st sid).map (fun p => p.2) = some 1
         else True)) := by
  constructor
  · by_cases h : getScenarioById fixed st sid = none
    · rw [if_pos h]
      refine ⟨?_, ?_, ?_⟩
      · unfold initializeWorkflow; rw [h]
      · unfold advancePhase; rw [h]
      · unfold jumpToPhase; rw [h]
    · rw [if_neg h]; trivial
  · cases hsc : getScenarioById fixed st sid with
    | none => exact trivial
    | some sc =>
      show (if indexOfFirst (phaseNames sc) target = none then _ else _) ∧ _
      constructor
      · by_cases ht : indexOfFirst (phaseNames sc) target = none
        · rw [if_pos ht]; unfold jumpToPhase; simp only [hsc, ht]
        · rw [if_neg ht]; trivial
      · by_cases hcur :
            indexOfFirst (phaseNames sc) (st.session.currentPhaseName.getD "specify") = none
        · rw [if_pos hcur]
          by_cases hlen : sc.workflowPhases.length ≤ 1
          · rw [if_pos hlen]
            unfold advancePhase
            simp only [hsc, hcur, Option.getD_none]
            rw [if_pos (by omega)]
          · rw [if_neg hlen]
            unfold advanceOutcome advancePhase
            simp only [hsc, hcur, Option.getD_none]
            rw [if_neg (by omega)]
            rfl
        · rw [if_neg hcur]; trivial

theorem phaseNames_length (sc : DemoScenario) :
    (phaseNames sc).length = sc.workflowPhases.length := by
  simp [phaseNames]

theorem phaseNames_getD (sc : DemoScenario) (j : Nat)
    (hj : j < (phaseNames sc).length) :
    (sc.workflowPhases.getD j { phaseName := "" }).phaseName =
      (phaseNames sc).get ⟨j, hj⟩ := by
  have hj' : j < sc.workflowPhases.length := by
    rw [← phaseNames_length sc]; exact hj
  rw [List.getD_eq_getElem?_getD, List.getElem?_eq_getElem hj']
  simp [phaseNames]

theorem getScenarioById_customs_eq (fixed : String → Option DemoScenario)
    {st st' : AppState} (h : st'.customScenarios = st.customScenarios)
    (sid : String) :
    getScenarioById fixed st' sid = getScenarioById fixed st sid := by
  unfold getScenarioById
  rw [h]

theorem advancePhase_last (fixed : String → Option DemoScenario) (today : Md)
    (sid : String) (sc : DemoScenario) (st : AppState) (i : Nat)
    (hsc : getScenarioById fixed st sid = some sc)
    (hnodup : (phaseNames sc).Nodup)
    (hi : i < (phaseNames sc).length)
    (hphase : st.session.currentPhaseName = some ((phaseNames sc).get ⟨i, hi⟩))
    (hlast : (phaseNames sc).length - 1 ≤ i) :
    advancePhase fixed today st sid = Except.error "Already at final phase" := by
  have hL := phaseNames_length sc
  unfold advancePhase
  simp only [hsc, hphase, Option.getD_some]
  rw [indexOfFirst_get hi hnodup]
  simp only [Option.getD_some]
  rw [if_pos (by omega)]

theorem advanceStep_success (fixed : String → Option DemoScenario) (today : Md)
    (sid : String) (sc : DemoScenario) (st : AppState) (i : Nat)
    (hsc : getScenarioById fixed st sid = some sc)
    (hnodup : (phaseNames sc).Nodup)
    (hi : i < (phaseNames sc).length)
    (hphase : st.session.currentPhaseName = some ((phaseNames sc).get ⟨i, hi⟩))
    (hsucc : i + 1 < (phaseNames sc).length) :
    (advanceStep fixed today sid st).customScenarios = st.customScenarios
  ∧ (advanceStep fixed today sid st).session.currentPhaseName =
      some ((phaseNames sc).get ⟨i + 1, hsucc⟩) := by
  have hL := phaseNames_length sc
  unfold advanceStep advancePhase
  simp only [hsc, hphase, Option.getD_some]
  rw [indexOfFirst_get hi hnodup]
  simp only [Option.getD_some]
  rw [if_neg (by omega)]
  refine ⟨rfl, ?_⟩
  show some ((sc.workflowPhases.getD (i + 1) { phaseName := "" }).phaseName) = _
  rw [phaseNames_getD sc (i + 1) hsucc]

theorem advanceTimes_index (fixed : String → Option DemoScenario) (today : Md)
    (sid : String) (sc : DemoScenario) (hnodup : (phaseNames sc).Nodup) :
    ∀ (N : Nat) (st : AppState) (i : Nat) (hi : i < (phaseNames sc).length),
      getScenarioById fixed st sid = some sc →
      st.session.currentPhaseName = some ((phaseNames sc).get ⟨i, hi⟩) →
      sessionPhaseIndex sc (advanceTimes fixed today sid st N).session =
        some (min (i + N) ((phaseNames sc).length - 1)) := by
  intro N
  induction N with
  | zero =>
    intro st i hi hsc hphase
    unfold advanceTimes sessionPhaseIndex
    rw [hphase]
    simp only [Option.getD_some]
    rw [indexOfFirst_get hi hnodup]
    congr 1
    omega
  | succ n ih =>
    intro st i hi hsc hphase
    rw [advanceTimes]
    by_cases hlast : (phaseNames sc).length - 1 ≤ i
    · have herr := advancePhase_last fixed today sid sc st i hsc hnodup hi hphase hlast
      have hstep : advanceStep fixed today sid st = st := by
        unfold advanceStep
        rw [herr]
      rw [hstep, ih st i hi hsc hphase]
      congr 1
      omega
    · have hsucc : i + 1 < (phaseNames sc).length := by omega
      obtain ⟨hcust, hphase'⟩ :=
        advanceStep_success fixed today sid sc st i hsc hnodup hi hphase hsucc
      have hsc' : getScenarioById fixed (advanceStep fixed today sid st) sid = some sc := by
        rw [getScenarioById_customs_eq fixed hcust sid]
        exact hsc
      rw [ih (advanceStep fixed today sid st) (i + 1) hsucc hsc' hphase']
      congr 1
      omega

/-- C3: with the session's current phase at index `i` of a duplicate-free
phase list of length `L`, calling Advance `N` times reaches phase index
`min (i + N) (L - 1)`; calling Advance at the last index raises
`InvalidTransition` ("Already at final phase") and leaves the state
unchanged. -/
theorem claim_C3_advance_monotonic (fixed : String → Option DemoScenario)
    (today : Md) (sid : String) (sc : DemoScenario) (N : Nat) (st : AppState)
    (i : Nat) (hsc : getScenarioById fixed st sid = some sc)
    (hnodup : (phaseNames sc).Nodup)
    (hi : i < (phaseNames sc).length)
    (hphase : st.session.currentPhaseName = some ((phaseNames sc).get ⟨i, hi⟩)) :
    sessionPhaseIndex sc (advanceTimes fixed today sid st N).session =
        some (min (i + N) ((phaseNames sc).length - 1))
  ∧ (if i = (phaseNames sc).length - 1 then
       advancePhase fixed today st sid = Except.error "Already at final phase"
       ∧ advanceStep fixed today sid st = st
     else True) := by
  refine ⟨advanceTimes_index fixed today sid sc hnodup N st i hi hsc hphase, ?_⟩
  by_cases hlast : i = (phaseNames sc).length - 1
  · rw [if_pos hlast]
    have herr :=
      advancePhase_last fixed today sid sc st i hsc hnodup hi hphase (by omega)
    refine ⟨herr, ?_⟩
    unfold advanceStep
    rw [herr]
  · rw [if_neg hlast]
    trivial

/-- C3 witness: from the last phase of `scDemo` (index 4 of 5), one more
Advance fails with "Already at final phase", the state is unchanged, and the
phase index stays 4. -/
theorem claim_C3_witness :
    sessionPhaseIndex scDemo
        (advanceTimes noFixed (lit "2026-10-12") "user-authentication" stLast 1).session =
      some 4
  ∧ (advancePhase noFixed (lit "2026-10-12") stLast "user-authentication" =
        Except.error "Already at final phase"
     ∧ advanceStep noFixed (lit "2026-10-12") "user-authentication" stLast = stLast) := by
  have h := claim_C3_advance_monotonic noFixed (lit "2026-10-12") "user-authentication"
    scDemo 1 stLast 4 rfl (by decide) (by decide) rfl
  exact ⟨h.1, h.2⟩

theorem lookupEntry_cons (x : String × PhaseEntry) (xs : PhaseInputs) (k : String) :
    lookupEntry (x :: xs) k = if x.1 == k then x.2 else lookupEntry xs k := by
  unfold lookupEntry
  simp only [List.find?]
  by_cases h : x.1 == k <;> simp [h]

theorem hasKey_cons (x : String × PhaseEntry) (xs : PhaseInputs) (k : String) :
    hasKey (x :: xs) k = ((x.1 == k) || hasKey xs k) := by
  unfold hasKey
  simp only [List.find?]
  by_cases h : x.1 == k <;> simp [h]

theorem lookupEntry_not_hasKey (m : PhaseInputs) (k : String)
    (h : hasKey m k = false) : lookupEntry m k = {} := by
  unfold lookupEntry
  unfold hasKey at h
  cases hfind : List.find? (fun p => p.1 == k) m with
  | none => simp only [hfind]
  | some p =>
    rw [hfind] at h
    simp at h

theorem fst_update (k : String) (e : PhaseEntry) (p : String × PhaseEntry) :
    (if p.1 == k then (p.1, e) else p).1 = p.1 := by
  by_cases h : p.1 == k <;> simp [h]

theorem lookupEntry_map_self (m : PhaseInputs) (k : String) (e : PhaseEntry) :
    lookupEntry (m.map (fun p => if p.1 == k then (p.1, e) else p)) k =
      if hasKey m k then e else {} := by
  induction m with
  | nil => rfl
  | cons p ps ih =>
    rw [List.map_cons, lookupEntry_cons, fst_update, hasKey_cons]
    by_cases hp : p.1 == k
    · rw [if_pos hp]
      simp [hp]
    · rw [if_neg hp, ih]
      simp [hp]

theorem lookupEntry_map_ne (m : PhaseInputs) (k : String) (e : PhaseEntry)
    (k' : String) (h : k' ≠ k) :
    lookupEntry (m.map (fun p => if p.1 == k then (p.1, e) else p)) k' =
      lookupEntry m k' := by
  induction m with
  | nil => rfl
  | cons p ps ih =>
    rw [List.map_cons, lookupEntry_cons, fst_update, lookupEntry_cons]
    by_cases hq : p.1 == k'
    · have hpk : p.1 ≠ k := by
        have : p.1 = k' := by simpa using hq
        rw [this]
        exact h
      rw [if_pos hq, if_pos hq, if_neg (by simpa using hpk)]
    · rw [if_neg hq, if_neg hq, ih]

theorem lookupEntry_append_one (m : PhaseInputs) (q : String × PhaseEntry)
    (k : String) :
    lookupEntry (m ++ [q]) k =
      if hasKey m k then lookupEntry m k
      else if q.1 == k then q.2 else {} := by
  induction m with
  | nil =>
    rw [List.nil_append, lookupEntry_cons]
    simp [hasKey, List.find?, lookupEntry]
  | cons p ps ih =>
    rw [List.cons_append, lookupEntry_cons, hasKey_cons, lookupEntry_cons]
    by_cases hp : p.1 == k
    · simp [hp]
    · simp only [hp, Bool.false_or, if_neg (by simpa using hp)]
      exact ih

theorem lookupEntry_persist_self (m : PhaseInputs) (k : String) (md : Md) :
    lookupEntry (persistArtifact m k md) k =
      { lookupEntry m k with artifactMarkdown := md } := by
  unfold persistArtifact updateEntry
  by_cases h : hasKey m k
  · rw [if_pos h, lookupEntry_map_self, if_pos h]
  · rw [if_neg h, lookupEntry_append_one, if_neg h, if_pos (by simp)]

theorem lookupEntry_persist_ne (m : PhaseInputs) (k : String) (md : Md)
    (k' : String) (h : k' ≠ k) :
    lookupEntry (persistArtifact m k md) k' = lookupEntry m k' := by
  unfold persistArtifact updateEntry
  by_cases hk : hasKey m k
  · rw [if_pos hk, lookupEntry_map_ne m k _ k' h]
  · rw [if_neg hk, lookupEntry_append_one]
    have hkk : (k == k') = false := by
      simp only [beq_eq_false_iff_ne, ne_eq]
      exact fun he => h he.symm
    rw [hkk]
    by_cases h2 : hasKey m k'
    · rw [if_pos h2]
    · rw [if_neg h2, if_neg (by simp), lookupEntry_not_hasKey m k' (by simpa using h2)]

theorem persist_input (m : PhaseInputs) (k : String) (md : Md) (k' : String) :
    (lookupEntry (persistArtifact m k md) k').input = (lookupEntry m k').input := by
  by_cases h : k' = k
  · subst h
    rw [lookupEntry_persist_self]
  · rw [lookupEntry_persist_ne m k md k' h]

theorem persist_clarifications (m : PhaseInputs) (k : String) (md : Md) (k' : String) :
    (lookupEntry (persistArtifact m k md) k').clarifications =
      (lookupEntry m k').clarifications := by
  by_cases h : k' = k
  · subst h
    rw [lookupEntry_persist_self]
  · rw [lookupEntry_persist_ne m k md k' h]

theorem persist_artifact_ne (m : PhaseInputs) (k : String) (md : Md)
    (k' : String) (h : k' ≠ k) :
    (lookupEntry (persistArtifact m k md) k').artifactMarkdown =
      (lookupEntry m k').artifactMarkdown := by
  rw [lookupEntry_persist_ne m k md k' h]

theorem buildArtifactContext_persist_other (sc : DemoScenario) (phaseName : String)
    (userInput : Md) (clarifications : List Clarification) (m : PhaseInputs)
    (today md0 : Md) (hplan : phaseName ≠ "plan") (htasks : phaseName ≠ "tasks") :
    buildArtifactContext sc phaseName userInput clarifications
        (persistArtifact m phaseName md0) today =
      buildArtifactContext sc phaseName userInput clarifications m today := by
  unfold buildArtifactContext
  rw [persist_input m phaseName md0 "specify", persist_input m phaseName md0 "plan",
    persist_input m phaseName md0 "tasks",
    persist_artifact_ne m phaseName md0 "plan" (Ne.symm hplan),
    persist_artifact_ne m phaseName md0 "tasks" (Ne.symm htasks)]

theorem buildArtifactContext_persist_plan (sc : DemoScenario) (userInput : Md)
    (clarifications : List Clarification) (m : PhaseInputs) (today md0 : Md) :
    buildArtifactContext sc "plan" userInput clarifications
        (persistArtifact m "plan" md0) today =
      { buildArtifactContext sc "plan" userInput clarifications m today with
        planInput :=
          if stripPreviousContextBlock md0 ≠ [] then stripPreviousContextBlock md0
          else (lookupEntry m "plan").input } := by
  unfold buildArtifactContext
  rw [persist_input m "plan" md0 "specify", persist_input m "plan" md0 "plan",
    persist_input m "plan" md0 "tasks",
    persist_artifact_ne m "plan" md0 "tasks" (by decide),
    lookupEntry_persist_self m "plan" md0]

theorem buildArtifactContext_persist_tasks (sc : DemoScenario) (userInput : Md)
    (clarifications : List Clarification) (m : PhaseInputs) (today md0 : Md) :
    buildArtifactContext sc "tasks" userInput clarifications
        (persistArtifact m "tasks" md0) today =
      { buildArtifactContext sc "tasks" userInput clarifications m today with
        tasksInput :=
          if stripPreviousContextBlock md0 ≠ [] then stripPreviousContextBlock md0
          else (lookupEntry m "tasks").input } := by
  unfold buildArtifactContext
  rw [persist_input m "tasks" md0 "specify", persist_input m "tasks" md0 "plan",
    persist_input m "tasks" md0 "tasks",
    persist_artifact_ne m "tasks" md0 "plan" (by decide),
    lookupEntry_persist_self m "tasks" md0]

theorem generatePlanContent_planInput (sc : DemoScenario) (c : ArtifactContext)
    (x : Md) :
    generatePlanContent sc { c with planInput := x } = generatePlanContent sc c := rfl

theorem generateTasksContent_tasksInput (sc : DemoScenario) (c : ArtifactContext)
    (x : Md) :
    generateTasksContent sc { c with tasksInput := x } = generateTasksContent sc c := rfl

theorem generateArtifactWithContext_persist (sc : DemoScenario) (phaseName : String)
    (m : PhaseInputs) (today md0 : Md) :
    generateArtifactWithContext sc phaseName (persistArtifact m phaseName md0) today =
      generateArtifactWithContext sc phaseName m today := by
  unfold generateArtifactWithContext
  rw [persist_input m phaseName md0 phaseName, persist_clarifications m phaseName md0 phaseName]
  by_cases h3 : phaseName = "plan"
  · subst h3
    rw [buildArtifactContext_persist_plan]
    unfold generateMarkdownWithContext
    rw [if_neg (by decide), if_neg (by decide), if_pos rfl]
    exact generatePlanContent_planInput sc _ _
  · by_cases h4 : phaseName = "tasks"
    · subst h4
      rw [buildArtifactContext_persist_tasks]
      unfold generateMarkdownWithContext
      rw [if_neg (by decide), if_neg (by decide), if_neg (by decide), if_pos rfl]
      exact generateTasksContent_tasksInput sc _ _
    · rw [buildArtifactContext_persist_other sc phaseName _ _ m today md0 h3 h4]

/-- C9: regenerating a phase's artifact twice in a row over unchanged stored
inputs (and the same date) yields byte-identical markdown, even though the
first call persists its markdown into the phase-input map before the second
call builds its context from that map. -/
theorem claim_C9_idempotent_generation (sc : DemoScenario) (phaseName : String)
    (m : PhaseInputs) (today : Md) :
    generateArtifactWithContext sc phaseName
        (persistArtifact m phaseName (generateArtifactWithContext sc phaseName m today))
        today =
      generateArtifactWithContext sc phaseName m today :=
  generateArtifactWithContext_persist sc phaseName m today _

end SpecKit
